import Mathlib

/-!
# Shallow embedding of the recommendation inference service (`backend/app.py`)

The service keeps five module-level globals (`CF_USER_FACTORS`,
`CF_ITEM_FACTORS`, `CF_MAPPERS`, `CBF_SIM_MATRIX`, `CBF_MAPPERS`), each
`None` until loaded.  We model the globals as a `Store` of `Option` fields,
numpy float matrices as `List (List ℚ)` (row lists), and the two request
handlers as pure functions `Store → args → Except ApiError response`.
`np.argsort` is modelled as a stable ascending sort of the index range by
score; Python slices `a[-k:]`, `a[::-1]`, `a[1:k+1]` are modelled by the
corresponding `List` operations, including the quirk that `a[-0:]` is the
whole list.
-/

/-- A Python dict lookup `d.get(key)` over an association list; later
entries of the list override earlier ones (Python dict insertion order),
which we realise by storing the list so that the first match wins. -/
def dictGet (m : List (String × Nat)) (key : String) : Option Nat :=
  (m.find? (fun p => p.1 == key)).map (·.2)

/-- The CF mappers dict.  `users` is the pickled index→user-id mapping,
`items` the index→item-id mapping.  `user_id_to_index` models the
`"user_id_to_index"` key, which is NOT in the pickle: it is inserted by a
separate assignment near the end of the CF load step, so it is `none`
whenever that assignment has not run. -/
structure CFMappers where
  users : List (Nat × String)
  items : List String
  user_id_to_index : Option (List (String × Nat))
deriving DecidableEq, Repr

/-- The CBF mappers dict, loaded atomically by one `pickle.load`. -/
structure CBFMappers where
  item_id_to_index : List (String × Nat)
  index_to_item_id : List String
deriving DecidableEq, Repr

/-- The five module-level globals of `app.py`; `none` = Python `None`. -/
structure Store where
  cf_user_factors : Option (List (List ℚ))
  cf_item_factors : Option (List (List ℚ))
  cf_mappers : Option CFMappers
  cbf_sim_matrix : Option (List (List ℚ))
  cbf_mappers : Option CBFMappers
deriving DecidableEq

/-- The observable failures of the two endpoints.  `notReadyCF`/`notReadyCBF`
are the explicit 500 "model not loaded" responses; `notFoundUser`/`notFoundItem`
the 404s; `internalCF`/`internalCBF` the catch-all 500 "Error during …
inference." raised from inside the handler's `try`; `uncaught` models an
exception escaping the handler outside any `try` (FastAPI's generic 500). -/
inductive ApiError where
  | notReadyCF : ApiError
  | notFoundUser : String → ApiError
  | internalCF : ApiError
  | notReadyCBF : ApiError
  | notFoundItem : String → ApiError
  | internalCBF : ApiError
  | uncaught : ApiError
deriving DecidableEq, Repr

/-- Score of index `i` in a score vector (out-of-range defaults are never
reached on the index sets we sort). -/
def score (scores : List ℚ) (i : Nat) : ℚ := scores.getD i 0

/-- The comparison used by `argsort`: ascending by score. -/
def rle (scores : List ℚ) (i j : Nat) : Prop := score scores i ≤ score scores j

instance (scores : List ℚ) : DecidableRel (rle scores) :=
  fun i j => inferInstanceAs (Decidable (score scores i ≤ score scores j))

instance (scores : List ℚ) : IsTotal Nat (rle scores) :=
  ⟨fun i j => le_total (score scores i) (score scores j)⟩

instance (scores : List ℚ) : IsTrans Nat (rle scores) :=
  ⟨fun _ _ _ h1 h2 => le_trans h1 h2⟩

/-- `np.argsort(scores)`: the indices `0, …, n-1` sorted ascending by score. -/
def argsort (scores : List ℚ) : List Nat :=
  List.insertionSort (rle scores) (List.range scores.length)

/-- Python slice `a[-k:]`.  For `k = 0` the start index `-0` is `0`, so the
slice is the WHOLE list; for `k > 0` it is the last `min k a.length`
elements (negative starts clamp at the beginning). -/
def sliceLastK {α : Type} (l : List α) (k : Nat) : List α :=
  if k = 0 then l else l.drop (l.length - k)

/-- `np.dot` of two vectors (shape conformance is a load-time invariant). -/
def dotProduct (u v : List ℚ) : ℚ := (List.zipWith (· * ·) u v).sum

/-- Number of columns of a dense matrix stored as a row list (`shape[1]`). -/
def numCols (M : List (List ℚ)) : Nat := (M.headD []).length

/-- Column `j` of a row-list matrix. -/
def colOf (M : List (List ℚ)) (j : Nat) : List ℚ := M.map (fun row => row.getD j 0)

/-- `user_vector.dot(CF_ITEM_FACTORS)`: one score per item (column). -/
def cfScores (u : List ℚ) (M : List (List ℚ)) : List ℚ :=
  (List.range (numCols M)).map (fun j => dotProduct u (colOf M j))

/-- `np.argsort(scores)[-k:][::-1]`: the CF top-k index selection. -/
def cfTopK (scores : List ℚ) (k : Nat) : List Nat :=
  (sliceLastK (argsort scores) k).reverse

/-- `np.argsort(scores)[::-1][1:k+1]`: the CBF selection — descending order,
positionally skipping rank 0 and keeping ranks `1..k`. -/
def cbfTopK (scores : List ℚ) (k : Nat) : List Nat :=
  (((argsort scores).reverse).drop 1).take k

/-- The list comprehension `[mapping[i] for i in idxs]`: fails (raising into
the surrounding `try`) iff some index is out of range. -/
def mapIds (items : List String) : List Nat → Option (List String)
  | [] => some []
  | i :: rest =>
      match items[i]?, mapIds items rest with
      | some id, some ids => some (id :: ids)
      | _, _ => none

/-- `get_cf_recommendations(user_id, k)` (`app.py` lines 104–120).
The readiness check tests only `CF_USER_FACTORS` and `CF_MAPPERS`;
the `"user_id_to_index"` key is read OUTSIDE the `try`, so its absence is
an uncaught `KeyError`; everything from the row lookup on is inside the
`try` and collapses to `internalCF`. -/
def get_cf_recommendations (s : Store) (user_id : String) (k : Nat) :
    Except ApiError (String × List String) :=
  match s.cf_user_factors, s.cf_mappers with
  | some uf, some mp =>
      match mp.user_id_to_index with
      | none => .error .uncaught
      | some u2i =>
          match dictGet u2i user_id with
          | none => .error (.notFoundUser user_id)
          | some user_index =>
              match uf[user_index]? with
              | none => .error .internalCF
              | some user_vector =>
                  match s.cf_item_factors with
                  | none => .error .internalCF
                  | some itemF =>
                      match mapIds mp.items (cfTopK (cfScores user_vector itemF) k) with
                      | none => .error .internalCF
                      | some recommendations => .ok (user_id, recommendations)
  | _, _ => .error .notReadyCF

/-- `get_cbf_recommendations(item_id, k)` (`app.py` lines 127–142).
`np.argsort(scores)[::-1][1:k+1]` is the descending order with rank 0
(positionally) skipped and ranks `1..k` kept. -/
def get_cbf_recommendations (s : Store) (item_id : String) (k : Nat) :
    Except ApiError (String × List String) :=
  match s.cbf_sim_matrix, s.cbf_mappers with
  | some simM, some mp =>
      match dictGet mp.item_id_to_index item_id with
      | none => .error (.notFoundItem item_id)
      | some item_index =>
          match simM[item_index]? with
          | none => .error .internalCBF
          | some scores =>
              match mapIds mp.index_to_item_id (cbfTopK scores k) with
              | none => .error .internalCBF
              | some recommendations => .ok (item_id, recommendations)
  | _, _ => .error .notReadyCBF

/-- The raw CF mappers pickle: the dict as stored on disk, before the
`"user_id_to_index"` key is inserted. -/
structure CFMappersRaw where
  users : List (Nat × String)
  items : List String
deriving DecidableEq, Repr

/-- The artifact files `load_all_artifacts` reads, in program order.  A
`none` field means that read raises (missing file, corrupt pickle, …);
`some v` means it succeeds with value `v`. -/
structure LoadEnv where
  cf_mappers_file : Option CFMappersRaw
  cf_user_factors_file : Option (List (List ℚ))
  cf_item_factors_file : Option (List (List ℚ))
  cbf_mappers_file : Option CBFMappers
  cbf_sim_file : Option (List (List ℚ))

/-- The dict comprehension `{v: k for k, v in CF_MAPPERS["users"].items()}`;
later pairs override earlier ones, realised by reversing so that the first
match of `dictGet` is the last write. -/
def invertUsers (users : List (Nat × String)) : List (String × Nat) :=
  (users.map (fun p => (p.2, p.1))).reverse

/-- All globals `None` (process start). -/
def emptyStore : Store := ⟨none, none, none, none, none⟩

/-- `load_all_artifacts()` (`app.py` lines 59–92).  Two independent `try`
blocks; inside each, globals are assigned one by one, so an exception
mid-block leaves the earlier assignments in place and the later fields
untouched.  The failure handler only logs, so the function always returns. -/
def load_all_artifacts (env : LoadEnv) (s0 : Store) : Store :=
  let s1 :=
    match env.cf_mappers_file with
    | none => s0
    | some raw =>
        let sA := { s0 with cf_mappers := some ⟨raw.users, raw.items, none⟩ }
        match env.cf_user_factors_file with
        | none => sA
        | some uf =>
            let sB := { sA with cf_user_factors := some uf }
            match env.cf_item_factors_file with
            | none => sB
            | some itf =>
                let sC := { sB with cf_item_factors := some itf }
                let newMp : CFMappers := ⟨raw.users, raw.items, some (invertUsers raw.users)⟩
                { sC with cf_mappers := some newMp }
  match env.cbf_mappers_file with
  | none => s1
  | some cm =>
      let s2 := { s1 with cbf_mappers := some cm }
      match env.cbf_sim_file with
      | none => s2
      | some sm => { s2 with cbf_sim_matrix := some sm }

/-- A request handler as a store transition: the handler bodies contain no
`global` statement and no assignment to any store field, so the state-passing
reading of the Python returns the store unchanged alongside the response. -/
def cf_handler_step (s : Store) (user_id : String) (k : Nat) :
    (Except ApiError (String × List String)) × Store :=
  (get_cf_recommendations s user_id k, s)

/-- State-passing form of the CBF handler; no store field is written. -/
def cbf_handler_step (s : Store) (item_id : String) (k : Nat) :
    (Except ApiError (String × List String)) × Store :=
  (get_cbf_recommendations s item_id k, s)

/-- A concrete fully-loaded store: the CF bundle is the spec's concrete CF
scenario (user factors `[[1,0],[0,1]]`, item factors `[[2,0,1],[0,3,1]]`),
the CBF bundle the spec's concrete CBF scenario (the 3×3 similarity
matrix). -/
def demoStore : Store :=
  { cf_user_factors := some [[1, 0], [0, 1]],
    cf_item_factors := some [[2, 0, 1], [0, 3, 1]],
    cf_mappers := some ⟨[(0, "u0"), (1, "u1")], ["item0", "item1", "item2"],
      some [("u0", 0), ("u1", 1)]⟩,
    cbf_sim_matrix := some [[1, 0.8, 0.1], [0.8, 1, 0.3], [0.1, 0.3, 1]],
    cbf_mappers := some ⟨[("item0", 0), ("item1", 1), ("item2", 2)],
      ["item0", "item1", "item2"]⟩ }

/-- A load environment where the CF `item_factors.npy` read raises after
`mappers.pkl` and `user_factors.npy` have already been assigned; the CBF
bundle loads fine. -/
def envItemFactorsFail : LoadEnv :=
  { cf_mappers_file := some ⟨[(0, "u0")], ["item0"]⟩,
    cf_user_factors_file := some [[1]],
    cf_item_factors_file := none,
    cbf_mappers_file := some ⟨[("item0", 0)], ["item0"]⟩,
    cbf_sim_file := some [[1]] }

/-- A load environment where the CF `user_factors.npy` read raises after
`mappers.pkl` has already been assigned. -/
def envUserFactorsFail : LoadEnv :=
  { cf_mappers_file := some ⟨[(0, "u0")], ["item0"]⟩,
    cf_user_factors_file := none,
    cf_item_factors_file := none,
    cbf_mappers_file := none,
    cbf_sim_file := none }

/-- A load environment where the CF `mappers.pkl` read raises (so no CF
global is ever assigned) while the CBF bundle loads fine. -/
def envCfMappersFail : LoadEnv :=
  { cf_mappers_file := none,
    cf_user_factors_file := some [[1]],
    cf_item_factors_file := some [[1]],
    cbf_mappers_file := some ⟨[("item0", 0), ("item1", 1), ("item2", 2)],
      ["item0", "item1", "item2"]⟩,
    cbf_sim_file := some [[1, 0.8, 0.1], [0.8, 1, 0.3], [0.1, 0.3, 1]] }

/-- The same CBF artifacts as `envCfMappersFail` with the CF artifacts all
loading fine. -/
def envAllOk : LoadEnv :=
  { cf_mappers_file := some ⟨[(0, "u0"), (1, "u1")], ["item0", "item1", "item2"]⟩,
    cf_user_factors_file := some [[1, 0], [0, 1]],
    cf_item_factors_file := some [[2, 0, 1], [0, 3, 1]],
    cbf_mappers_file := some ⟨[("item0", 0), ("item1", 1), ("item2", 2)],
      ["item0", "item1", "item2"]⟩,
    cbf_sim_file := some [[1, 0.8, 0.1], [0.8, 1, 0.3], [0.1, 0.3, 1]] }

/-! ### Properties of `argsort` (a sorted permutation of the index range) -/

theorem argsort_perm (s : List ℚ) : List.Perm (argsort s) (List.range s.length) :=
  List.perm_insertionSort _ _

theorem argsort_length (s : List ℚ) : (argsort s).length = s.length := by
  rw [(argsort_perm s).length_eq, List.length_range]

theorem argsort_nodup (s : List ℚ) : (argsort s).Nodup :=
  ((argsort_perm s).nodup_iff).mpr (List.nodup_range _)

theorem mem_argsort {s : List ℚ} {i : Nat} : i ∈ argsort s ↔ i < s.length := by
  rw [(argsort_perm s).mem_iff, List.mem_range]

theorem argsort_sorted (s : List ℚ) : List.Sorted (rle s) (argsort s) :=
  List.sorted_insertionSort (rle s) (List.range s.length)

/-! ### Properties of the Python slices -/

theorem sliceLastK_zero {α : Type} (l : List α) : sliceLastK l 0 = l := rfl

theorem sliceLastK_sublist {α : Type} (l : List α) (k : Nat) : List.Sublist (sliceLastK l k) l := by
  unfold sliceLastK
  split
  · exact List.Sublist.refl l
  · exact List.drop_sublist _ _

theorem sliceLastK_length {α : Type} (l : List α) {k : Nat} (hk : 0 < k) :
    (sliceLastK l k).length = min k l.length := by
  unfold sliceLastK
  rw [if_neg (Nat.pos_iff_ne_zero.mp hk), List.length_drop]
  omega

/-! ### Properties of the CF top-k index selection -/

theorem cfTopK_length {scores : List ℚ} {k : Nat} (hk : 0 < k) :
    (cfTopK scores k).length = min k scores.length := by
  unfold cfTopK
  rw [List.length_reverse, sliceLastK_length _ hk, argsort_length]

theorem cfTopK_zero_length (scores : List ℚ) :
    (cfTopK scores 0).length = scores.length := by
  unfold cfTopK
  rw [List.length_reverse, sliceLastK_zero, argsort_length]

theorem cfTopK_nodup (scores : List ℚ) (k : Nat) : (cfTopK scores k).Nodup := by
  unfold cfTopK
  rw [List.nodup_reverse]
  exact List.Nodup.sublist (sliceLastK_sublist _ k) (argsort_nodup scores)

theorem cfTopK_mem {scores : List ℚ} {k i : Nat} (h : i ∈ cfTopK scores k) :
    i < scores.length := by
  unfold cfTopK at h
  rw [List.mem_reverse] at h
  exact mem_argsort.mp ((sliceLastK_sublist _ k).subset h)

theorem cfTopK_sorted (scores : List ℚ) (k : Nat) :
    (cfTopK scores k).Pairwise (fun i j => score scores j ≤ score scores i) := by
  unfold cfTopK
  rw [List.pairwise_reverse]
  exact List.Pairwise.sublist (sliceLastK_sublist _ k) (argsort_sorted scores)

/-! ### Properties of the CBF top-k index selection -/

theorem cbfTopK_length (scores : List ℚ) (k : Nat) :
    (cbfTopK scores k).length = min k (scores.length - 1) := by
  unfold cbfTopK
  rw [List.length_take, List.length_drop, List.length_reverse, argsort_length]

theorem cbfTopK_sublist_rev (scores : List ℚ) (k : Nat) :
    List.Sublist (cbfTopK scores k) ((argsort scores).reverse) :=
  (List.take_sublist _ _).trans (List.drop_sublist _ _)

theorem cbfTopK_mem {scores : List ℚ} {k i : Nat} (h : i ∈ cbfTopK scores k) :
    i < scores.length := by
  have hm := (cbfTopK_sublist_rev scores k).subset h
  rw [List.mem_reverse] at hm
  exact mem_argsort.mp hm

theorem cbfTopK_nodup (scores : List ℚ) (k : Nat) : (cbfTopK scores k).Nodup :=
  List.Nodup.sublist (cbfTopK_sublist_rev scores k)
    (List.nodup_reverse.mpr (argsort_nodup scores))

theorem cbfTopK_sorted (scores : List ℚ) (k : Nat) :
    (cbfTopK scores k).Pairwise (fun i j => score scores j ≤ score scores i) := by
  refine List.Pairwise.sublist (cbfTopK_sublist_rev scores k) ?_
  rw [List.pairwise_reverse]
  exact argsort_sorted scores

/-! ### Translating selected indices back to external ids -/

theorem mapIds_eq_map (items : List String) (idxs : List Nat)
    (h : ∀ i ∈ idxs, i < items.length) :
    mapIds items idxs = some (idxs.map (fun i => items.getD i "")) := by
  induction idxs with
  | nil => rfl
  | cons a as ih =>
      have ha : a < items.length := h a (List.mem_cons_self a as)
      have h1 : items[a]? = some items[a] := List.getElem?_eq_getElem ha
      have h2 : mapIds items as = some (as.map (fun i => items.getD i "")) :=
        ih (fun i hi => h i (List.mem_cons_of_mem a hi))
      simp [mapIds, h1, h2, List.getD_eq_getElem items "" ha]

theorem map_getD_nodup (items : List String) (idxs : List Nat)
    (hbound : ∀ i ∈ idxs, i < items.length)
    (hidx : idxs.Nodup) (hitems : items.Nodup) :
    (idxs.map (fun i => items.getD i "")).Nodup := by
  refine List.Nodup.map_on ?_ hidx
  intro x hx y hy hxy
  have hxl := hbound x hx
  have hyl := hbound y hy
  rw [List.getD_eq_getElem items "" hxl, List.getD_eq_getElem items "" hyl] at hxy
  exact (List.Nodup.getElem_inj_iff hitems).mp hxy

theorem map_getD_mem (items : List String) (idxs : List Nat)
    (hbound : ∀ i ∈ idxs, i < items.length) :
    ∀ r ∈ idxs.map (fun i => items.getD i ""), r ∈ items := by
  intro r hr
  obtain ⟨i, hi, rfl⟩ := List.mem_map.mp hr
  rw [List.getD_eq_getElem items "" (hbound i hi)]
  exact List.getElem_mem _

theorem cfScores_length (u : List ℚ) (M : List (List ℚ)) :
    (cfScores u M).length = numCols M := by
  unfold cfScores
  rw [List.length_map, List.length_range]

/-! ### Projections of the loaded store -/

theorem load_cbf_mappers_eq (env : LoadEnv) (s0 : Store) :
    (load_all_artifacts env s0).cbf_mappers =
      (match env.cbf_mappers_file with
       | none => s0.cbf_mappers
       | some cm => some cm) := by
  obtain ⟨a, b, c, d, e⟩ := env
  cases a <;> cases b <;> cases c <;> cases d <;> cases e <;>
    simp [load_all_artifacts]

theorem load_cbf_sim_eq (env : LoadEnv) (s0 : Store) :
    (load_all_artifacts env s0).cbf_sim_matrix =
      (match env.cbf_mappers_file, env.cbf_sim_file with
       | some _, some sm => some sm
       | _, _ => s0.cbf_sim_matrix) := by
  obtain ⟨a, b, c, d, e⟩ := env
  cases a <;> cases b <;> cases c <;> cases d <;> cases e <;>
    simp [load_all_artifacts]

theorem get_cbf_depends_only_on_cbf (s s2 : Store) (item_id : String) (k : Nat)
    (h1 : s.cbf_sim_matrix = s2.cbf_sim_matrix) (h2 : s.cbf_mappers = s2.cbf_mappers) :
    get_cbf_recommendations s item_id k = get_cbf_recommendations s2 item_id k := by
  unfold get_cbf_recommendations
  rw [h1, h2]

theorem get_cf_not_ready_of_none (s : Store) (user_id : String) (k : Nat)
    (h : s.cf_user_factors = none ∨ s.cf_mappers = none) :
    get_cf_recommendations s user_id k = .error .notReadyCF := by
  unfold get_cf_recommendations
  rcases h with h | h
  · rw [h]
  · rw [h]
    cases s.cf_user_factors <;> rfl

/-- Claim C1: for every known user id and every positive `k`, the CF
endpoint returns `ok` with exactly `min k num_items` item ids, each drawn
from the item universe (`items`), with no duplicates, sorted by
non-increasing dot-product score; in particular `k > num_items` yields all
items ranked.  Hypotheses beyond "known user id" are the spec §3 shape
invariants: the user's factor row exists, and `items` has one id per item
column and no duplicate ids. -/
theorem cf_recommend_known_user (s : Store) (user_id : String) (k : Nat)
    (uf itemF : List (List ℚ)) (mp : CFMappers) (u2i : List (String × Nat)) (uidx : Nat)
    (huf : s.cf_user_factors = some uf) (hmp : s.cf_mappers = some mp)
    (hu2i : mp.user_id_to_index = some u2i)
    (hknown : dictGet u2i user_id = some uidx)
    (hitf : s.cf_item_factors = some itemF)
    (hrow : uidx < uf.length)
    (hitems : mp.items.length = numCols itemF)
    (hnodup : mp.items.Nodup)
    (hk : 0 < k) :
    ∃ recs : List String,
      get_cf_recommendations s user_id k = .ok (user_id, recs) ∧
      recs = (cfTopK (cfScores (uf.getD uidx []) itemF) k).map
        (fun i => mp.items.getD i "") ∧
      recs.length = min k (numCols itemF) ∧
      recs.Nodup ∧
      (∀ r ∈ recs, r ∈ mp.items) ∧
      (cfTopK (cfScores (uf.getD uidx []) itemF) k).Pairwise
        (fun i j => score (cfScores (uf.getD uidx []) itemF) j ≤
          score (cfScores (uf.getD uidx []) itemF) i) := by
  have hget : uf[uidx]? = some (uf.getD uidx []) := by
    rw [List.getElem?_eq_getElem hrow, List.getD_eq_getElem uf [] hrow]
  have hlen : (cfScores (uf.getD uidx []) itemF).length = numCols itemF :=
    cfScores_length _ _
  have hbound : ∀ i ∈ cfTopK (cfScores (uf.getD uidx []) itemF) k,
      i < mp.items.length := by
    intro i hi
    have h1 := cfTopK_mem hi
    omega
  have hmap := mapIds_eq_map mp.items _ hbound
  refine ⟨_, ?_, rfl, ?_, ?_, ?_, cfTopK_sorted _ _⟩
  · simp only [get_cf_recommendations, huf, hmp, hu2i, hknown, hget, hitf, hmap]
  · rw [List.length_map, cfTopK_length hk, hlen]
  · exact map_getD_nodup _ _ hbound (cfTopK_nodup _ _) hnodup
  · exact map_getD_mem _ _ hbound

/-- Witness for C1: the general theorem applied to the concrete demo store,
user `"u0"`, `k = 2`. -/
theorem cf_recommend_known_user_witness :
    ∃ recs : List String,
      get_cf_recommendations demoStore "u0" 2 = .ok ("u0", recs) ∧
      recs = (cfTopK (cfScores (([[1, 0], [0, 1]] : List (List ℚ)).getD 0 [])
          [[2, 0, 1], [0, 3, 1]]) 2).map
        (fun i => (["item0", "item1", "item2"] : List String).getD i "") ∧
      recs.length = min 2 (numCols [[2, 0, 1], [0, 3, 1]]) ∧
      recs.Nodup ∧
      (∀ r ∈ recs, r ∈ (["item0", "item1", "item2"] : List String)) ∧
      (cfTopK (cfScores (([[1, 0], [0, 1]] : List (List ℚ)).getD 0 [])
          [[2, 0, 1], [0, 3, 1]]) 2).Pairwise
        (fun i j => score (cfScores (([[1, 0], [0, 1]] : List (List ℚ)).getD 0 [])
            [[2, 0, 1], [0, 3, 1]]) j ≤
          score (cfScores (([[1, 0], [0, 1]] : List (List ℚ)).getD 0 [])
            [[2, 0, 1], [0, 3, 1]]) i) :=
  cf_recommend_known_user demoStore "u0" 2 [[1, 0], [0, 1]] [[2, 0, 1], [0, 3, 1]]
    ⟨[(0, "u0"), (1, "u1")], ["item0", "item1", "item2"], some [("u0", 0), ("u1", 1)]⟩
    [("u0", 0), ("u1", 1)] 0 rfl rfl rfl rfl rfl (by decide) rfl (by decide) (by decide)

/-- Claim C2: for every known item id and every positive `k`, the CBF
endpoint returns `ok` with exactly `min k (num_items - 1)` item ids, sorted
by non-increasing similarity, obtained by positionally skipping rank 0 of
the descending sort of the item's similarity row (ranks `1..k`).
Hypotheses beyond "known item id" are the spec §3 invariants: the item's
row exists, the matrix is square, and `index_to_item_id` has one entry per
item. -/
theorem cbf_recommend_known_item (s : Store) (item_id : String) (k : Nat)
    (simM : List (List ℚ)) (mp : CBFMappers) (iidx : Nat)
    (hsim : s.cbf_sim_matrix = some simM) (hmp : s.cbf_mappers = some mp)
    (hknown : dictGet mp.item_id_to_index item_id = some iidx)
    (hrow : iidx < simM.length)
    (hsq : (simM.getD iidx []).length = simM.length)
    (hids : mp.index_to_item_id.length = simM.length)
    (_hk : 0 < k) :
    ∃ recs : List String,
      get_cbf_recommendations s item_id k = .ok (item_id, recs) ∧
      recs = (cbfTopK (simM.getD iidx []) k).map
        (fun i => mp.index_to_item_id.getD i "") ∧
      recs.length = min k (simM.length - 1) ∧
      cbfTopK (simM.getD iidx []) k =
        (((argsort (simM.getD iidx [])).reverse).drop 1).take k ∧
      (cbfTopK (simM.getD iidx []) k).Pairwise
        (fun i j => score (simM.getD iidx []) j ≤ score (simM.getD iidx []) i) := by
  have hget : simM[iidx]? = some (simM.getD iidx []) := by
    rw [List.getElem?_eq_getElem hrow, List.getD_eq_getElem simM [] hrow]
  have hbound : ∀ i ∈ cbfTopK (simM.getD iidx []) k,
      i < mp.index_to_item_id.length := by
    intro i hi
    have h1 := cbfTopK_mem hi
    omega
  have hmap := mapIds_eq_map mp.index_to_item_id _ hbound
  refine ⟨_, ?_, rfl, ?_, rfl, cbfTopK_sorted _ _⟩
  · simp only [get_cbf_recommendations, hsim, hmp, hknown, hget, hmap]
  · rw [List.length_map, cbfTopK_length, hsq]

/-- Witness for C2: the general theorem applied to the concrete demo store,
item `"item0"`, `k = 1`. -/
theorem cbf_recommend_known_item_witness :
    ∃ recs : List String,
      get_cbf_recommendations demoStore "item0" 1 = .ok ("item0", recs) ∧
      recs = (cbfTopK (([[1, 0.8, 0.1], [0.8, 1, 0.3], [0.1, 0.3, 1]] :
          List (List ℚ)).getD 0 []) 1).map
        (fun i => (["item0", "item1", "item2"] : List String).getD i "") ∧
      recs.length = min 1 (([[1, 0.8, 0.1], [0.8, 1, 0.3], [0.1, 0.3, 1]] :
          List (List ℚ)).length - 1) ∧
      cbfTopK (([[1, 0.8, 0.1], [0.8, 1, 0.3], [0.1, 0.3, 1]] :
          List (List ℚ)).getD 0 []) 1 =
        (((argsort (([[1, 0.8, 0.1], [0.8, 1, 0.3], [0.1, 0.3, 1]] :
          List (List ℚ)).getD 0 [])).reverse).drop 1).take 1 ∧
      (cbfTopK (([[1, 0.8, 0.1], [0.8, 1, 0.3], [0.1, 0.3, 1]] :
          List (List ℚ)).getD 0 []) 1).Pairwise
        (fun i j => score (([[1, 0.8, 0.1], [0.8, 1, 0.3], [0.1, 0.3, 1]] :
            List (List ℚ)).getD 0 []) j ≤
          score (([[1, 0.8, 0.1], [0.8, 1, 0.3], [0.1, 0.3, 1]] :
            List (List ℚ)).getD 0 []) i) :=
  cbf_recommend_known_item demoStore "item0" 1
    [[1, 0.8, 0.1], [0.8, 1, 0.3], [0.1, 0.3, 1]]
    ⟨[("item0", 0), ("item1", 1), ("item2", 2)], ["item0", "item1", "item2"]⟩
    0 rfl rfl rfl (by decide) (by norm_num) (by norm_num) (by decide)

theorem load_cf_user_factors_eq (env : LoadEnv) (s0 : Store) :
    (load_all_artifacts env s0).cf_user_factors =
      (match env.cf_mappers_file, env.cf_user_factors_file with
       | some _, some uf => some uf
       | _, _ => s0.cf_user_factors) := by
  obtain ⟨a, b, c, d, e⟩ := env
  cases a <;> cases b <;> cases c <;> cases d <;> cases e <;>
    simp [load_all_artifacts]

theorem load_cf_item_factors_eq (env : LoadEnv) (s0 : Store) :
    (load_all_artifacts env s0).cf_item_factors =
      (match env.cf_mappers_file, env.cf_user_factors_file, env.cf_item_factors_file with
       | some _, some _, some itf => some itf
       | _, _, _ => s0.cf_item_factors) := by
  obtain ⟨a, b, c, d, e⟩ := env
  cases a <;> cases b <;> cases c <;> cases d <;> cases e <;>
    simp [load_all_artifacts]

theorem load_cf_mappers_eq (env : LoadEnv) (s0 : Store) :
    (load_all_artifacts env s0).cf_mappers =
      (match env.cf_mappers_file with
       | none => s0.cf_mappers
       | some raw =>
           match env.cf_user_factors_file, env.cf_item_factors_file with
           | some _, some _ => some ⟨raw.users, raw.items, some (invertUsers raw.users)⟩
           | _, _ => some ⟨raw.users, raw.items, none⟩) := by
  obtain ⟨a, b, c, d, e⟩ := env
  cases a <;> cases b <;> cases c <;> cases d <;> cases e <;>
    simp [load_all_artifacts]

/-- Counterexample to claim C3 as stated: when the CF bundle load fails at
the `item_factors.npy` step (after `mappers.pkl` and `user_factors.npy`
already loaded), a subsequent CF recommend call does NOT fail with
`NotReady`: the readiness check passes (it only tests `CF_USER_FACTORS` and
`CF_MAPPERS`), and the handler then hits the missing
`"user_id_to_index"` key OUTSIDE its `try`, an uncaught `KeyError`. -/
theorem cf_load_failure_counterexample :
    get_cf_recommendations (load_all_artifacts envItemFactorsFail emptyStore) "u0" 5 =
      .error .uncaught ∧
    (Except.error ApiError.uncaught : Except ApiError (String × List String)) ≠
      .error .notReadyCF := by
  constructor
  · norm_num [get_cf_recommendations, load_all_artifacts, envItemFactorsFail, emptyStore]
  · intro hcontra
    exact ApiError.noConfusion (Except.error.inj hcontra)

/-- Claim C3, amended: for every load failure that leaves `CF_USER_FACTORS`
or `CF_MAPPERS` unset — i.e. any exception at the `mappers.pkl` or
`user_factors.npy` step, the first two of the three CF reads — every
subsequent CF recommend call fails with `NotReady`; and independently, CBF
recommend results depend only on the CBF artifact files, so a CF load
failure never affects them.  (A failure at the later `item_factors.npy`
step instead escapes as an uncaught error, see the counterexample.) -/
theorem cf_load_failure_not_ready (env env2 : LoadEnv) (user_id item_id : String)
    (k k2 : Nat)
    (hfail : env.cf_mappers_file = none ∨ env.cf_user_factors_file = none)
    (hm : env2.cbf_mappers_file = env.cbf_mappers_file)
    (hs : env2.cbf_sim_file = env.cbf_sim_file) :
    get_cf_recommendations (load_all_artifacts env emptyStore) user_id k =
      .error .notReadyCF ∧
    get_cbf_recommendations (load_all_artifacts env2 emptyStore) item_id k2 =
      get_cbf_recommendations (load_all_artifacts env emptyStore) item_id k2 := by
  constructor
  · apply get_cf_not_ready_of_none
    left
    rw [load_cf_user_factors_eq]
    rcases hfail with h | h
    · rw [h]
      cases env.cf_user_factors_file <;> rfl
    · rw [h]
      cases env.cf_mappers_file <;> rfl
  · apply get_cbf_depends_only_on_cbf
    · rw [load_cbf_sim_eq, load_cbf_sim_eq, hm, hs]
    · rw [load_cbf_mappers_eq, load_cbf_mappers_eq, hm]

/-- Witness for C3 (amended): the CF `mappers.pkl` read fails while the CBF
artifacts load; CF recommend is `NotReady` and the CBF answer equals the one
under a fully successful load. -/
theorem cf_load_failure_not_ready_witness :
    get_cf_recommendations (load_all_artifacts envCfMappersFail emptyStore) "u0" 50 =
      .error .notReadyCF ∧
    get_cbf_recommendations (load_all_artifacts envAllOk emptyStore) "item0" 5 =
      get_cbf_recommendations (load_all_artifacts envCfMappersFail emptyStore) "item0" 5 :=
  cf_load_failure_not_ready envCfMappersFail envAllOk "u0" "item0" 50 5
    (Or.inl rfl) rfl rfl

/-- Counterexample to claim C4 as stated: when the `user_factors.npy` read
raises after `mappers.pkl` has been assigned, the CF bundle's fields are
NOT all left in the not-loaded state — `CF_MAPPERS` stays set (and without
its derived `"user_id_to_index"` key) while `CF_USER_FACTORS` stays null:
the bundle is partially set. -/
theorem load_partial_set_counterexample :
    (load_all_artifacts envUserFactorsFail emptyStore).cf_user_factors = none ∧
    (load_all_artifacts envUserFactorsFail emptyStore).cf_mappers ≠ none := by
  constructor
  · norm_num [load_all_artifacts, envUserFactorsFail, emptyStore]
  · norm_num [load_all_artifacts, envUserFactorsFail, emptyStore]
    intro hcontra
    exact Option.noConfusion hcontra

/-- Claim C4, amended: an exception at any point of a bundle load never
propagates (the loader is a total function), and it leaves exactly the
fields assigned BEFORE the failing step set and the later fields null.
All fields of the bundle are null only when the bundle's FIRST read (its
mappers pickle) fails; a failure at a later step leaves the bundle
partially set — e.g. mappers without its derived reverse index. -/
theorem load_exception_partial_fields (env : LoadEnv) :
    (env.cf_mappers_file = none →
      (load_all_artifacts env emptyStore).cf_mappers = none ∧
      (load_all_artifacts env emptyStore).cf_user_factors = none ∧
      (load_all_artifacts env emptyStore).cf_item_factors = none) ∧
    (∀ raw : CFMappersRaw, env.cf_mappers_file = some raw →
      env.cf_user_factors_file = none →
      (load_all_artifacts env emptyStore).cf_mappers =
        some ⟨raw.users, raw.items, none⟩ ∧
      (load_all_artifacts env emptyStore).cf_user_factors = none ∧
      (load_all_artifacts env emptyStore).cf_item_factors = none) ∧
    (∀ raw : CFMappersRaw, ∀ uf : List (List ℚ), env.cf_mappers_file = some raw →
      env.cf_user_factors_file = some uf →
      env.cf_item_factors_file = none →
      (load_all_artifacts env emptyStore).cf_mappers =
        some ⟨raw.users, raw.items, none⟩ ∧
      (load_all_artifacts env emptyStore).cf_user_factors = some uf ∧
      (load_all_artifacts env emptyStore).cf_item_factors = none) ∧
    (env.cbf_mappers_file = none →
      (load_all_artifacts env emptyStore).cbf_mappers = none ∧
      (load_all_artifacts env emptyStore).cbf_sim_matrix = none) ∧
    (∀ cm : CBFMappers, env.cbf_mappers_file = some cm → env.cbf_sim_file = none →
      (load_all_artifacts env emptyStore).cbf_mappers = some cm ∧
      (load_all_artifacts env emptyStore).cbf_sim_matrix = none) := by
  refine ⟨?_, ?_, ?_, ?_, ?_⟩
  · intro h
    rw [load_cf_mappers_eq, load_cf_user_factors_eq, load_cf_item_factors_eq, h]
    exact ⟨rfl, rfl, rfl⟩
  · intro raw h1 h2
    rw [load_cf_mappers_eq, load_cf_user_factors_eq, load_cf_item_factors_eq, h1, h2]
    exact ⟨rfl, rfl, rfl⟩
  · intro raw uf h1 h2 h3
    rw [load_cf_mappers_eq, load_cf_user_factors_eq, load_cf_item_factors_eq, h1, h2, h3]
    exact ⟨rfl, rfl, rfl⟩
  · intro h
    rw [load_cbf_mappers_eq, load_cbf_sim_eq, h]
    exact ⟨rfl, rfl⟩
  · intro cm h1 h2
    rw [load_cbf_mappers_eq, load_cbf_sim_eq, h1, h2]
    exact ⟨rfl, rfl⟩

/-- Witness for C4 (amended): the mid-load failure of `envUserFactorsFail`
leaves `CF_MAPPERS` set (without the derived reverse index) and the two
factor fields null. -/
theorem load_exception_partial_fields_witness :
    (load_all_artifacts envUserFactorsFail emptyStore).cf_mappers =
      some ⟨[(0, "u0")], ["item0"], none⟩ ∧
    (load_all_artifacts envUserFactorsFail emptyStore).cf_user_factors = none ∧
    (load_all_artifacts envUserFactorsFail emptyStore).cf_item_factors = none :=
  (load_exception_partial_fields envUserFactorsFail).2.1 ⟨[(0, "u0")], ["item0"]⟩ rfl rfl

/-- Claim C5: a user id absent from `user_id_to_index` makes CF recommend
fail with `NotFound` (the 404, not an internal error), and an item id
absent from `item_id_to_index` makes CBF recommend fail with `NotFound`. -/
theorem recommend_unknown_id_not_found (s : Store) (user_id item_id : String)
    (k k2 : Nat)
    (uf : List (List ℚ)) (mp : CFMappers) (u2i : List (String × Nat))
    (huf : s.cf_user_factors = some uf) (hmp : s.cf_mappers = some mp)
    (hu2i : mp.user_id_to_index = some u2i)
    (hunknown : dictGet u2i user_id = none)
    (simM : List (List ℚ)) (cmp : CBFMappers)
    (hsim : s.cbf_sim_matrix = some simM) (hcmp : s.cbf_mappers = some cmp)
    (hunknown2 : dictGet cmp.item_id_to_index item_id = none) :
    get_cf_recommendations s user_id k = .error (.notFoundUser user_id) ∧
    get_cbf_recommendations s item_id k2 = .error (.notFoundItem item_id) := by
  constructor
  · simp only [get_cf_recommendations, huf, hmp, hu2i, hunknown]
  · simp only [get_cbf_recommendations, hsim, hcmp, hunknown2]

/-- Witness for C5: ids `"nobody"` and `"nothing"` are in neither mapping
of the demo store. -/
theorem recommend_unknown_id_not_found_witness :
    get_cf_recommendations demoStore "nobody" 50 =
      .error (.notFoundUser "nobody") ∧
    get_cbf_recommendations demoStore "nothing" 5 =
      .error (.notFoundItem "nothing") :=
  recommend_unknown_id_not_found demoStore "nobody" "nothing" 50 5
    [[1, 0], [0, 1]]
    ⟨[(0, "u0"), (1, "u1")], ["item0", "item1", "item2"], some [("u0", 0), ("u1", 1)]⟩
    [("u0", 0), ("u1", 1)] rfl rfl rfl rfl
    [[1, 0.8, 0.1], [0.8, 1, 0.3], [0.1, 0.3, 1]]
    ⟨[("item0", 0), ("item1", 1), ("item2", 2)], ["item0", "item1", "item2"]⟩
    rfl rfl rfl

/-- Claim C6: on the spec's concrete CF scenario (user factors
`[[1,0],[0,1]]`, item factors `[[2,0,1],[0,3,1]]`), the score vector of
user index 0 is `[2,0,1]` and `recommend("u0", 2)` returns
`[item0, item2]` in that order. -/
theorem cf_concrete_scenario :
    cfScores [1, 0] [[2, 0, 1], [0, 3, 1]] = [2, 0, 1] ∧
    get_cf_recommendations demoStore "u0" 2 = .ok ("u0", ["item0", "item2"]) := by
  constructor
  · norm_num [cfScores, numCols, colOf, dotProduct, List.range_succ]
  · norm_num [get_cf_recommendations, demoStore, dictGet, argsort, rle, score,
      cfScores, numCols, colOf, dotProduct, sliceLastK, mapIds, cfTopK, List.find?]

/-- Claim C7: on the spec's concrete 3×3 similarity matrix,
`recommend("item0", 1)` returns exactly `[item1]` — self at rank 0 is
skipped and item 1 (similarity 0.8) is the highest remaining. -/
theorem cbf_concrete_scenario :
    get_cbf_recommendations demoStore "item0" 1 = .ok ("item0", ["item1"]) := by
  norm_num [get_cbf_recommendations, demoStore, dictGet, argsort, rle, score,
    mapIds, cbfTopK, List.find?]

/-- Claim C8: both recommend operations are deterministic reads — running
the same call twice against the store left by the first call yields the
identical ordered result.  The handlers contain no `global` statement, so
their state-passing embedding returns the store unchanged, and the second
call sees the same store. -/
theorem recommend_idempotent (s : Store) (user_id item_id : String) (k k2 : Nat) :
    (cf_handler_step ((cf_handler_step s user_id k).2) user_id k).1 =
      (cf_handler_step s user_id k).1 ∧
    (cbf_handler_step ((cbf_handler_step s item_id k2).2) item_id k2).1 =
      (cbf_handler_step s item_id k2).1 :=
  ⟨rfl, rfl⟩

/-- Claim C9: no recommend call mutates the artifact store — in the
state-passing embedding of the handlers (which contain no assignment to
any global) the store after the call is the store before it, for every
input and store, hence for succeeding and failing requests alike. -/
theorem recommend_no_mutation (s : Store) (user_id item_id : String) (k k2 : Nat) :
    (cf_handler_step s user_id k).2 = s ∧
    (cbf_handler_step s item_id k2).2 = s :=
  ⟨rfl, rfl⟩

/-- Claim C10: at `k = 0` the CF slice `[-0:]` selects the whole sorted
index array, so a known user receives ALL `num_items` item ids, not the
empty list; the `length ≤ k` contract therefore needs `k > 0`. -/
theorem cf_k_zero_returns_all (s : Store) (user_id : String)
    (uf itemF : List (List ℚ)) (mp : CFMappers) (u2i : List (String × Nat)) (uidx : Nat)
    (huf : s.cf_user_factors = some uf) (hmp : s.cf_mappers = some mp)
    (hu2i : mp.user_id_to_index = some u2i)
    (hknown : dictGet u2i user_id = some uidx)
    (hitf : s.cf_item_factors = some itemF)
    (hrow : uidx < uf.length)
    (hitems : mp.items.length = numCols itemF) :
    ∃ recs : List String,
      get_cf_recommendations s user_id 0 = .ok (user_id, recs) ∧
      recs.length = numCols itemF := by
  have hget : uf[uidx]? = some (uf.getD uidx []) := by
    rw [List.getElem?_eq_getElem hrow, List.getD_eq_getElem uf [] hrow]
  have hlen : (cfScores (uf.getD uidx []) itemF).length = numCols itemF :=
    cfScores_length _ _
  have hbound : ∀ i ∈ cfTopK (cfScores (uf.getD uidx []) itemF) 0,
      i < mp.items.length := by
    intro i hi
    have h1 := cfTopK_mem hi
    omega
  have hmap := mapIds_eq_map mp.items _ hbound
  refine ⟨(cfTopK (cfScores (uf.getD uidx []) itemF) 0).map
    (fun i => mp.items.getD i ""), ?_, ?_⟩
  · simp only [get_cf_recommendations, huf, hmp, hu2i, hknown, hget, hitf, hmap]
  · rw [List.length_map, cfTopK_zero_length, hlen]

/-- Witness for C10: `recommend("u0", 0)` on the demo store returns a list
of all 3 item ids. -/
theorem cf_k_zero_returns_all_witness :
    ∃ recs : List String,
      get_cf_recommendations demoStore "u0" 0 = .ok ("u0", recs) ∧
      recs.length = numCols [[2, 0, 1], [0, 3, 1]] :=
  cf_k_zero_returns_all demoStore "u0" [[1, 0], [0, 1]] [[2, 0, 1], [0, 3, 1]]
    ⟨[(0, "u0"), (1, "u1")], ["item0", "item1", "item2"], some [("u0", 0), ("u1", 1)]⟩
    [("u0", 0), ("u1", 1)] 0 rfl rfl rfl rfl rfl (by decide) rfl
